import Mathlib

/-!
Shallow embedding of the AetherMonitor Plus core monitoring engine
(`src/core.py`, class `MonitorCore`).  Python floats are modelled as
rationals (`ℚ`); Python `time.time()` is an explicit timestamp argument;
every `psutil` OS query is an explicit input in an environment record, with
`none` standing for a raised exception.  Fallible paths that let an
exception escape to the caller are modelled with an `Option` result.
-/

namespace AetherMonitor

/-- The mutable state of `MonitorCore` (`core.py`, `__init__`, lines 16-46):
cached percentages, the cached temperature and health, per-metric last-sample
timestamps, the totals cache, the three sampling intervals, and the
construction-time temperature-availability flag. -/
structure MonitorCore where
  cpu_percent : ℚ
  ram_percent : ℚ
  disk_percent : ℚ
  temp_celsius : ℚ
  health : ℚ
  last_cpu_time : ℚ
  last_ram_time : ℚ
  last_disk_time : ℚ
  last_temp_time : ℚ
  ram_total_gb : ℚ
  disk_total_gb : ℚ
  cpu_interval : ℚ
  ram_interval : ℚ
  disk_interval : ℚ
  temp_available : Bool
  deriving Repr, DecidableEq

/-- Outcomes of the OS queries that one call of `get_lightweight_metrics`
may perform.  `none` models the query raising an exception.
`app_memory_mb` is the value returned by `get_app_memory_usage` (that method
catches its own exceptions and returns `0.0`, so it always yields a number).
`cpu_query` is `psutil.cpu_percent(interval=1)`; `ram_query` is
`psutil.virtual_memory().percent`; the two disk queries return the
`(used, total)` pair of `psutil.disk_usage` on the primary path and on the
user home directory; `temp_query` is `psutil.sensors_temperatures()`, where
`some none` models a truthy-check failing or no entry list being non-empty
(so no assignment happens) and `some (some v)` models the first available
entry current value `v`. -/
structure OSEnv where
  app_memory_mb : ℚ
  cpu_query : Option ℚ
  ram_query : Option ℚ
  disk_query_primary : Option (ℚ × ℚ)
  disk_query_home : Option (ℚ × ℚ)
  temp_query : Option (Option ℚ)
  deriving Repr, DecidableEq

/-- The dictionary returned by `get_lightweight_metrics` (lines 175-181).
`temp` is `None` (here `none`) exactly when `_temp_available` is false. -/
structure Metrics where
  cpu : ℚ
  ram : ℚ
  disk : ℚ
  temp : Option ℚ
  health : ℚ
  deriving Repr, DecidableEq

/-- How many per-metric sampling events one call performed: a sampling
event is one execution of the body of a metric re-sample branch (for disk
one event makes one or, on primary-path failure, two `psutil.disk_usage`
calls; for the other kinds one event is exactly one OS query). -/
structure QueryCount where
  cpu : Nat
  ram : Nat
  disk : Nat
  temp : Nat
  deriving Repr, DecidableEq

/-- Result of one `get_lightweight_metrics` call: the post-call object
state, the returned dictionary (`none` when an uncaught exception
propagated to the caller), and the sampling-event counts. -/
structure SnapResult where
  state : MonitorCore
  metrics : Option Metrics
  count : QueryCount
  deriving Repr, DecidableEq

/-- Environment for `__init__`: results of the startup OS queries.
`virtual_memory_total_gb` and the two disk totals are the already-converted
GB values (`total / 1024^3`), `none` when the query raises.
`sensors_check` is the outcome of `_check_temp_availability`: `some b` when
`psutil.sensors_temperatures()` returns and `bool(temps) = b` (a missing
`sensors_temperatures` attribute is `some false`), `none` when it raises. -/
structure InitEnv where
  virtual_memory_total_gb : Option ℚ
  disk_primary_total_gb : Option ℚ
  disk_home_total_gb : Option ℚ
  sensors_check : Option Bool
  deriving Repr, DecidableEq

/-- `MonitorCore.__init__` (lines 16-46) together with `_init_totals`
(lines 48-64) and `_check_temp_availability` (lines 66-75): caches start at
zero, health at 100, timestamps at zero, intervals at 3/5/10 seconds, and
the temperature flag records the construction-time capability check (false
on exception). -/
def mk_monitor_core (env : InitEnv) : MonitorCore :=
  { cpu_percent := 0
    ram_percent := 0
    disk_percent := 0
    temp_celsius := 0
    health := 100
    last_cpu_time := 0
    last_ram_time := 0
    last_disk_time := 0
    last_temp_time := 0
    ram_total_gb := env.virtual_memory_total_gb.getD 0
    disk_total_gb :=
      match env.disk_primary_total_gb with
      | some g => g
      | none => env.disk_home_total_gb.getD 0
    cpu_interval := 3
    ram_interval := 5
    disk_interval := 10
    temp_available := env.sensors_check.getD false }

/-- `_calculate_health` (lines 109-112):
`100.0 - ((cpu * 0.3) + (ram * 0.4) + (disk * 0.3))` clamped into
`[0, 100]` by `max(0.0, min(100.0, health))`. -/
def calculate_health (cpu ram disk : ℚ) : ℚ :=
  max 0 (min 100 (100 - (cpu * 0.3 + ram * 0.4 + disk * 0.3)))

/-- `optimize_memory_usage` (lines 92-101): widen the three sampling
intervals to 10/15/20 seconds; the cached values are deliberately kept and
only `gc.collect()` is run (no modelled state effect). -/
def optimize_memory_usage (s : MonitorCore) : MonitorCore :=
  { s with cpu_interval := 10, ram_interval := 15, disk_interval := 20 }

/-- `check_memory_limit` (lines 84-90): if the process resident memory in
MB exceeds 25, call `optimize_memory_usage` and return `true`, else leave
the state unchanged and return `false`. -/
def check_memory_limit (s : MonitorCore) (memory_mb : ℚ) : MonitorCore × Bool :=
  if memory_mb > 25 then (optimize_memory_usage s, true) else (s, false)

/-- Python `int(current_time)` for the `int(current_time) % 30 == 0` test
on line 119.  Timestamps are nonnegative, where `num / den` agrees with
both truncation and floor. -/
def int_trunc (q : ℚ) : ℤ := q.num / q.den

/-- The periodic memory-limit phase of `get_lightweight_metrics`
(lines 118-120): every wall-clock second whose integer part is divisible by
30, run `check_memory_limit` (its Boolean result is discarded). -/
def mem_phase (s : MonitorCore) (t : ℚ) (mem_mb : ℚ) : MonitorCore :=
  if int_trunc t % 30 = 0 then (check_memory_limit s mem_mb).1 else s

/-- CPU branch of `get_lightweight_metrics` (lines 122-127): unsynchronized
staleness check, then the same check again under the lock, then
`psutil.cpu_percent(interval=1)` whose result is stored together with the
new `_last_cpu_time`.  The query is not wrapped in try/except, so a raised
exception (`Except.error`, carrying the state at the raise point)
propagates to the caller. -/
def cpu_step (s : MonitorCore) (t : ℚ) (q : Option ℚ) :
    Except MonitorCore MonitorCore × Nat :=
  if t - s.last_cpu_time ≥ s.cpu_interval then
    if t - s.last_cpu_time ≥ s.cpu_interval then
      match q with
      | some v => (Except.ok { s with cpu_percent := v, last_cpu_time := t }, 1)
      | none => (Except.error s, 1)
    else (Except.ok s, 0)
  else (Except.ok s, 0)

/-- RAM branch of `get_lightweight_metrics` (lines 129-135): double-checked
staleness gate, then `psutil.virtual_memory().percent`; not wrapped in
try/except, so a failure propagates. -/
def ram_step (s : MonitorCore) (t : ℚ) (q : Option ℚ) :
    Except MonitorCore MonitorCore × Nat :=
  if t - s.last_ram_time ≥ s.ram_interval then
    if t - s.last_ram_time ≥ s.ram_interval then
      match q with
      | some v => (Except.ok { s with ram_percent := v, last_ram_time := t }, 1)
      | none => (Except.error s, 1)
    else (Except.ok s, 0)
  else (Except.ok s, 0)

/-- The home-directory fallback of the disk branch (lines 145-149): on any
failure of the primary query (including a zero total, which raises
`ZeroDivisionError` inside the same try), compute `used / total * 100` from
`disk_usage(os.path.expanduser('~'))`; if that also fails (again including
a zero total), set the percent to `0.0`. -/
def disk_fallback (qh : Option (ℚ × ℚ)) : ℚ :=
  match qh with
  | some (used, total) => if total = 0 then 0 else used / total * 100
  | none => 0

/-- The percent stored by one execution of the disk branch body
(lines 141-149), given the outcomes of the primary and home queries. -/
def disk_result (qp qh : Option (ℚ × ℚ)) : ℚ :=
  match qp with
  | some (used, total) => if total = 0 then disk_fallback qh else used / total * 100
  | none => disk_fallback qh

/-- Disk branch of `get_lightweight_metrics` (lines 137-150): the outer
gate compares against `_disk_interval` but the locked re-check on line 140
compares against the literal `10`.  Whatever the query outcomes,
`_last_disk_time` is assigned `current_time` after the try/except
(line 150), and on double failure `_disk_percent` is set to `0.0`. -/
def disk_step (s : MonitorCore) (t : ℚ) (qp qh : Option (ℚ × ℚ)) :
    MonitorCore × Nat :=
  if t - s.last_disk_time ≥ s.disk_interval then
    if t - s.last_disk_time ≥ 10 then
      ({ s with disk_percent := disk_result qp qh, last_disk_time := t }, 1)
    else (s, 0)
  else (s, 0)

/-- Temperature branch of `get_lightweight_metrics` (lines 152-166): only
runs when `_temp_available` is true; a fixed 10-second window; inside the
lock, `sensors_temperatures()` is read under try/except (`pass` on
failure), storing the first available entry current value when one exists;
`_last_temp_time` is assigned after the try/except, so it is updated even
when the query failed. -/
def temp_step (s : MonitorCore) (t : ℚ) (q : Option (Option ℚ)) :
    MonitorCore × Nat :=
  if s.temp_available = true ∧ t - s.last_temp_time ≥ 10 then
    if t - s.last_temp_time ≥ 10 then
      match q with
      | some (some v) => ({ s with temp_celsius := v, last_temp_time := t }, 1)
      | some none => ({ s with last_temp_time := t }, 1)
      | none => ({ s with last_temp_time := t }, 1)
    else (s, 0)
  else (s, 0)

/-- `get_lightweight_metrics` (lines 114-181): the memory-limit phase, then
the CPU, RAM, disk and temperature branches in order, then the health
recomputation and the returned dictionary.  A CPU or RAM query exception is
uncaught, aborting the call (`metrics = none`) with the state mutated so
far. -/
def get_lightweight_metrics (s0 : MonitorCore) (t : ℚ) (env : OSEnv) :
    SnapResult :=
  let s1 := mem_phase s0 t env.app_memory_mb
  match cpu_step s1 t env.cpu_query with
  | (Except.error se, c1) => ⟨se, none, ⟨c1, 0, 0, 0⟩⟩
  | (Except.ok s2, c1) =>
    match ram_step s2 t env.ram_query with
    | (Except.error se, c2) => ⟨se, none, ⟨c1, c2, 0, 0⟩⟩
    | (Except.ok s3, c2) =>
      let d := disk_step s3 t env.disk_query_primary env.disk_query_home
      let tp := temp_step d.1 t env.temp_query
      let s6 := { tp.1 with
        health := calculate_health tp.1.cpu_percent tp.1.ram_percent tp.1.disk_percent }
      ⟨s6,
       some ⟨s6.cpu_percent, s6.ram_percent, s6.disk_percent,
             if s6.temp_available = true then some s6.temp_celsius else none,
             s6.health⟩,
       ⟨c1, c2, d.2, tp.2⟩⟩

/-- One recommendation rule as a tuple
(matched?, text, action, priority). -/
abbrev Rule := Bool × String × String × Nat

/-- The `RECOMMENDATIONS` table of `get_recommendations` (lines 192-223) in
dictionary insertion order, with each lambda condition evaluated on the
cached percentages.  The text strings reproduce the source bytes as they
stand in the file. -/
def recommendation_rules (s : MonitorCore) : List Rule :=
  [ (decide (s.disk_percent > 95), "ðŸ”´ Low disk space", "Clean temporary files", 1),
    (decide (s.disk_percent > 85), "ðŸŸ¡ Low free space", "Free up disk space", 2),
    (decide (s.ram_percent > 85), "ðŸŸ¡ High memory usage", "Close unnecessary applications", 2),
    (decide (s.cpu_percent > 90), "ðŸŸ¢ High CPU load", "Check background processes", 2),
    (decide (s.ram_percent > 75), "ðŸŸ¡ High RAM usage", "Close background applications", 3) ]

/-- Stable insertion of a matched rule into a priority-sorted list: the new
element goes after every element of smaller-or-equal priority, matching the
stability of Python `list.sort` with `key=lambda x: x[2]`. -/
def insert_by_priority (x : String × String × Nat) :
    List (String × String × Nat) → List (String × String × Nat)
  | [] => [x]
  | y :: ys =>
    if y.2.2 ≤ x.2.2 then y :: insert_by_priority x ys else x :: y :: ys

/-- Stable sort of the matched rules by ascending priority
(`recs.sort(key=lambda x: x[2])`, line 234). -/
def sort_by_priority :
    List (String × String × Nat) → List (String × String × Nat)
  | [] => []
  | x :: xs => insert_by_priority x (sort_by_priority xs)

/-- The fixed `general_tips` list (lines 239-243). -/
def general_tips : List (String × String) :=
  [("ðŸ’¡ System Optimization", "Regularly clean temporary files"),
   ("ðŸ’¡ Performance", "Close unused programs"),
   ("ðŸ’¡ Maintenance", "Check disk for errors monthly")]

/-- `get_recommendations` (lines 183-246): return `[]` when the process
resident memory exceeds 30 MB; otherwise collect the matched rules in table
order, sort them stably by ascending priority, keep the first 3 as
(text, action) pairs, and if nothing matched return the first 2 general
tips. -/
def get_recommendations (s : MonitorCore) (app_memory_mb : ℚ) :
    List (String × String) :=
  if app_memory_mb > 30 then []
  else
    let recs := (recommendation_rules s).filterMap
      (fun r => if r.1 then some (r.2.1, r.2.2.1, r.2.2.2) else none)
    let sorted := sort_by_priority recs
    let result := (sorted.take 3).map (fun r => (r.1, r.2.1))
    if result = [] then general_tips.take 2 else result

/-- The operations of the engine, for trace-level statements: a snapshot
call at a given time with given OS-query outcomes, a memory-limit check
with a given resident-memory reading, a direct `optimize_memory_usage`,
`clear_caches` (which only runs `gc.collect()`), and a
`get_recommendations` call (a pure read of the cached state). -/
inductive Op where
  | snapshot (t : ℚ) (env : OSEnv)
  | check_memory (mem_mb : ℚ)
  | optimize
  | clear_caches
  | recommendations (mem_mb : ℚ)
  deriving Repr

/-- State effect of one engine operation. -/
def apply_op (s : MonitorCore) : Op → MonitorCore
  | Op.snapshot t env => (get_lightweight_metrics s t env).state
  | Op.check_memory m => (check_memory_limit s m).1
  | Op.optimize => optimize_memory_usage s
  | Op.clear_caches => s
  | Op.recommendations _ => s

/-- State after a sequence of engine operations. -/
def run_ops (s : MonitorCore) : List Op → MonitorCore
  | [] => s
  | op :: ops => run_ops (apply_op s op) ops

/-- The snapshot results along a sequence of snapshot calls
(time and environment per call), for lifetime statements. -/
def run_snapshots (s : MonitorCore) : List (ℚ × OSEnv) → List SnapResult
  | [] => []
  | (t, env) :: rest =>
    let r := get_lightweight_metrics s t env
    r :: run_snapshots r.state rest

/-- A concrete engine state for witnesses: zero caches, default intervals,
no temperature sensor (the state `mk_monitor_core` produces when every
startup query reports zero totals and no sensors). -/
def base_state : MonitorCore :=
  { cpu_percent := 0
    ram_percent := 0
    disk_percent := 0
    temp_celsius := 0
    health := 100
    last_cpu_time := 0
    last_ram_time := 0
    last_disk_time := 0
    last_temp_time := 0
    ram_total_gb := 0
    disk_total_gb := 0
    cpu_interval := 3
    ram_interval := 5
    disk_interval := 10
    temp_available := false }

/-- A concrete benign OS environment for witnesses: low process memory and
every query succeeding with in-range values. -/
def base_env : OSEnv :=
  { app_memory_mb := 1
    cpu_query := some 20
    ram_query := some 40
    disk_query_primary := some (50, 100)
    disk_query_home := some (50, 100)
    temp_query := some (some 35) }

/-- A concrete OS environment in which both disk queries raise while the
CPU and RAM queries succeed. -/
def fail_disk_env : OSEnv :=
  { app_memory_mb := 0
    cpu_query := some 0
    ram_query := some 0
    disk_query_primary := none
    disk_query_home := none
    temp_query := none }

/-- A concrete OS environment whose CPU query reports 150 percent. -/
def overrange_env : OSEnv :=
  { app_memory_mb := 0
    cpu_query := some 150
    ram_query := some 50
    disk_query_primary := none
    disk_query_home := none
    temp_query := none }

end AetherMonitor

namespace AetherMonitor

/-- The memory-limit phase either leaves the state alone or applies
`optimize_memory_usage` to it. -/
theorem mem_phase_cases (s : MonitorCore) (t m : ℚ) :
    mem_phase s t m = s ∨ mem_phase s t m = optimize_memory_usage s := by
  unfold mem_phase check_memory_limit
  by_cases h2 : int_trunc t % 30 = 0
  · rw [if_pos h2]
    by_cases h : m > 25
    · rw [if_pos h]
      exact Or.inr rfl
    · rw [if_neg h]
      exact Or.inl rfl
  · rw [if_neg h2]
    exact Or.inl rfl

/-- The memory-limit phase changes no field but the three intervals, and
keeps each interval at or below its widened value when it was there. -/
theorem mem_phase_frame (s : MonitorCore) (t m : ℚ) :
    (mem_phase s t m).cpu_percent = s.cpu_percent
    ∧ (mem_phase s t m).ram_percent = s.ram_percent
    ∧ (mem_phase s t m).disk_percent = s.disk_percent
    ∧ (mem_phase s t m).temp_celsius = s.temp_celsius
    ∧ (mem_phase s t m).health = s.health
    ∧ (mem_phase s t m).last_cpu_time = s.last_cpu_time
    ∧ (mem_phase s t m).last_ram_time = s.last_ram_time
    ∧ (mem_phase s t m).last_disk_time = s.last_disk_time
    ∧ (mem_phase s t m).last_temp_time = s.last_temp_time
    ∧ (mem_phase s t m).ram_total_gb = s.ram_total_gb
    ∧ (mem_phase s t m).disk_total_gb = s.disk_total_gb
    ∧ (mem_phase s t m).temp_available = s.temp_available := by
  rcases mem_phase_cases s t m with h | h <;> rw [h] <;>
    simp [optimize_memory_usage]

/-- The memory-limit phase keeps each interval at most its widened value
when it starts there. -/
theorem mem_phase_interval_le (s : MonitorCore) (t m : ℚ)
    (h1 : s.cpu_interval ≤ 10) (h2 : s.ram_interval ≤ 15)
    (h3 : s.disk_interval ≤ 20) :
    (mem_phase s t m).cpu_interval ≤ 10
    ∧ (mem_phase s t m).ram_interval ≤ 15
    ∧ (mem_phase s t m).disk_interval ≤ 20 := by
  rcases mem_phase_cases s t m with h | h <;> rw [h] <;>
    simp [optimize_memory_usage, h1, h2, h3]

/-- Full case description of the CPU branch: at most one sampling event,
the result state differs from the input only in the two CPU fields, the
new percent either is the cached one or came from the query, and the error
outcome happens only on a failing query. -/
theorem cpu_step_pair (s : MonitorCore) (t : ℚ) (q : Option ℚ) :
    ∃ p l c, c ≤ 1 ∧ (p = s.cpu_percent ∨ q = some p)
      ∧ (l = s.last_cpu_time ∨ l = t)
      ∧ (cpu_step s t q = (Except.ok { s with cpu_percent := p, last_cpu_time := l }, c)
         ∨ (q = none ∧
            cpu_step s t q = (Except.error { s with cpu_percent := p, last_cpu_time := l }, c))) := by
  unfold cpu_step
  by_cases h : t - s.last_cpu_time ≥ s.cpu_interval
  · rw [if_pos h, if_pos h]
    cases q with
    | some v =>
      exact ⟨v, t, 1, le_refl 1, Or.inr rfl, Or.inr rfl, Or.inl rfl⟩
    | none =>
      exact ⟨s.cpu_percent, s.last_cpu_time, 1, le_refl 1, Or.inl rfl, Or.inl rfl,
        Or.inr ⟨rfl, rfl⟩⟩
  · rw [if_neg h]
    exact ⟨s.cpu_percent, s.last_cpu_time, 0, Nat.zero_le 1, Or.inl rfl, Or.inl rfl,
      Or.inl rfl⟩

/-- CPU branch when the gate is closed: no sampling event, state unchanged. -/
theorem cpu_step_skip (s : MonitorCore) (t : ℚ) (q : Option ℚ)
    (h : t - s.last_cpu_time < s.cpu_interval) :
    cpu_step s t q = (Except.ok s, 0) := by
  unfold cpu_step
  rw [if_neg (not_le.mpr h)]

/-- CPU branch on a succeeding query never raises. -/
theorem cpu_step_ok_of_isSome (s : MonitorCore) (t : ℚ) (q : Option ℚ)
    (hq : q.isSome = true) :
    ∃ p l c, c ≤ 1
      ∧ cpu_step s t q = (Except.ok { s with cpu_percent := p, last_cpu_time := l }, c) := by
  obtain ⟨p, l, c, hc, _, _, hcase | ⟨hnone, _⟩⟩ := cpu_step_pair s t q
  · exact ⟨p, l, c, hc, hcase⟩
  · rw [hnone] at hq
    cases hq

/-- Full case description of the RAM branch, as for the CPU branch. -/
theorem ram_step_pair (s : MonitorCore) (t : ℚ) (q : Option ℚ) :
    ∃ p l c, c ≤ 1 ∧ (p = s.ram_percent ∨ q = some p)
      ∧ (l = s.last_ram_time ∨ l = t)
      ∧ (ram_step s t q = (Except.ok { s with ram_percent := p, last_ram_time := l }, c)
         ∨ (q = none ∧
            ram_step s t q = (Except.error { s with ram_percent := p, last_ram_time := l }, c))) := by
  unfold ram_step
  by_cases h : t - s.last_ram_time ≥ s.ram_interval
  · rw [if_pos h, if_pos h]
    cases q with
    | some v =>
      exact ⟨v, t, 1, le_refl 1, Or.inr rfl, Or.inr rfl, Or.inl rfl⟩
    | none =>
      exact ⟨s.ram_percent, s.last_ram_time, 1, le_refl 1, Or.inl rfl, Or.inl rfl,
        Or.inr ⟨rfl, rfl⟩⟩
  · rw [if_neg h]
    exact ⟨s.ram_percent, s.last_ram_time, 0, Nat.zero_le 1, Or.inl rfl, Or.inl rfl,
      Or.inl rfl⟩

/-- RAM branch when the gate is closed: no sampling event, state unchanged. -/
theorem ram_step_skip (s : MonitorCore) (t : ℚ) (q : Option ℚ)
    (h : t - s.last_ram_time < s.ram_interval) :
    ram_step s t q = (Except.ok s, 0) := by
  unfold ram_step
  rw [if_neg (not_le.mpr h)]

/-- RAM branch on a succeeding query never raises. -/
theorem ram_step_ok_of_isSome (s : MonitorCore) (t : ℚ) (q : Option ℚ)
    (hq : q.isSome = true) :
    ∃ p l c, c ≤ 1
      ∧ ram_step s t q = (Except.ok { s with ram_percent := p, last_ram_time := l }, c) := by
  obtain ⟨p, l, c, hc, _, _, hcase | ⟨hnone, _⟩⟩ := ram_step_pair s t q
  · exact ⟨p, l, c, hc, hcase⟩
  · rw [hnone] at hq
    cases hq

/-- Full case description of the disk branch: at most one sampling event,
only the two disk fields change, and a changed percent is `disk_result` of
the two query outcomes. -/
theorem disk_step_pair (s : MonitorCore) (t : ℚ) (qp qh : Option (ℚ × ℚ)) :
    ∃ p l c, c ≤ 1 ∧ (p = s.disk_percent ∨ p = disk_result qp qh)
      ∧ (l = s.last_disk_time ∨ l = t)
      ∧ disk_step s t qp qh = ({ s with disk_percent := p, last_disk_time := l }, c) := by
  unfold disk_step
  by_cases h1 : t - s.last_disk_time ≥ s.disk_interval
  · rw [if_pos h1]
    by_cases h2 : t - s.last_disk_time ≥ 10
    · rw [if_pos h2]
      exact ⟨disk_result qp qh, t, 1, le_refl 1, Or.inr rfl, Or.inr rfl, rfl⟩
    · rw [if_neg h2]
      exact ⟨s.disk_percent, s.last_disk_time, 0, Nat.zero_le 1, Or.inl rfl, Or.inl rfl, rfl⟩
  · rw [if_neg h1]
    exact ⟨s.disk_percent, s.last_disk_time, 0, Nat.zero_le 1, Or.inl rfl, Or.inl rfl, rfl⟩

/-- Disk branch when the outer gate is closed: no sampling event. -/
theorem disk_step_skip (s : MonitorCore) (t : ℚ) (qp qh : Option (ℚ × ℚ))
    (h : t - s.last_disk_time < s.disk_interval) :
    disk_step s t qp qh = (s, 0) := by
  unfold disk_step
  rw [if_neg (not_le.mpr h)]

/-- Disk branch when both gates are open: one sampling event storing
`disk_result` and stamping `last_disk_time`, whatever the query outcomes. -/
theorem disk_step_fire (s : MonitorCore) (t : ℚ) (qp qh : Option (ℚ × ℚ))
    (h1 : t - s.last_disk_time ≥ s.disk_interval)
    (h2 : t - s.last_disk_time ≥ 10) :
    disk_step s t qp qh
      = ({ s with disk_percent := disk_result qp qh, last_disk_time := t }, 1) := by
  unfold disk_step
  rw [if_pos h1, if_pos h2]

/-- Full case description of the temperature branch: at most one sampling
event and only the two temperature fields change. -/
theorem temp_step_pair (s : MonitorCore) (t : ℚ) (q : Option (Option ℚ)) :
    ∃ p l c, c ≤ 1 ∧ (l = s.last_temp_time ∨ l = t)
      ∧ temp_step s t q = ({ s with temp_celsius := p, last_temp_time := l }, c) := by
  unfold temp_step
  by_cases hc : s.temp_available = true ∧ t - s.last_temp_time ≥ 10
  · rw [if_pos hc, if_pos hc.2]
    cases q with
    | none => exact ⟨s.temp_celsius, t, 1, le_refl 1, Or.inr rfl, rfl⟩
    | some o =>
      cases o with
      | none => exact ⟨s.temp_celsius, t, 1, le_refl 1, Or.inr rfl, rfl⟩
      | some v => exact ⟨v, t, 1, le_refl 1, Or.inr rfl, rfl⟩
  · rw [if_neg hc]
    exact ⟨s.temp_celsius, s.last_temp_time, 0, Nat.zero_le 1, Or.inl rfl, rfl⟩

/-- Temperature branch is inert when the availability flag is false. -/
theorem temp_step_off (s : MonitorCore) (t : ℚ) (q : Option (Option ℚ))
    (h : s.temp_available = false) :
    temp_step s t q = (s, 0) := by
  unfold temp_step
  rw [if_neg (by simp [h])]

/-- Temperature branch when its 10-second window has not elapsed: inert. -/
theorem temp_step_skip (s : MonitorCore) (t : ℚ) (q : Option (Option ℚ))
    (h : t - s.last_temp_time < 10) :
    temp_step s t q = (s, 0) := by
  unfold temp_step
  rw [if_neg (fun hc => absurd hc.2 (not_le.mpr h))]

/-- Temperature branch on a raising query with the window elapsed: the
cached temperature is kept but the timestamp is still updated. -/
theorem temp_step_fire_err (s : MonitorCore) (t : ℚ)
    (ha : s.temp_available = true) (h : t - s.last_temp_time ≥ 10) :
    temp_step s t none = ({ s with last_temp_time := t }, 1) := by
  unfold temp_step
  rw [if_pos ⟨ha, h⟩, if_pos h]

/-- Normal form of `get_lightweight_metrics` when the CPU and RAM queries
do not raise: the result is assembled from the four step outcomes. -/
theorem glm_ok_eq (s0 : MonitorCore) (t : ℚ) (env : OSEnv)
    (s2 s3 s4 s5 : MonitorCore) (c1 c2 c3 c4 : Nat)
    (hc : cpu_step (mem_phase s0 t env.app_memory_mb) t env.cpu_query = (Except.ok s2, c1))
    (hr : ram_step s2 t env.ram_query = (Except.ok s3, c2))
    (hd : disk_step s3 t env.disk_query_primary env.disk_query_home = (s4, c3))
    (ht : temp_step s4 t env.temp_query = (s5, c4)) :
    get_lightweight_metrics s0 t env =
      ⟨{ s5 with health := calculate_health s5.cpu_percent s5.ram_percent s5.disk_percent },
       some ⟨s5.cpu_percent, s5.ram_percent, s5.disk_percent,
             if s5.temp_available = true then some s5.temp_celsius else none,
             calculate_health s5.cpu_percent s5.ram_percent s5.disk_percent⟩,
       ⟨c1, c2, c3, c4⟩⟩ := by
  simp only [get_lightweight_metrics, hc, hr, hd, ht]

/-- Normal form of `get_lightweight_metrics` when the CPU query raises:
the call aborts with no dictionary, the state as mutated so far, and no
later sampling events. -/
theorem glm_cpu_err_eq (s0 : MonitorCore) (t : ℚ) (env : OSEnv)
    (se : MonitorCore) (c1 : Nat)
    (hc : cpu_step (mem_phase s0 t env.app_memory_mb) t env.cpu_query = (Except.error se, c1)) :
    get_lightweight_metrics s0 t env = ⟨se, none, ⟨c1, 0, 0, 0⟩⟩ := by
  simp only [get_lightweight_metrics, hc]

/-- Normal form of `get_lightweight_metrics` when the RAM query raises. -/
theorem glm_ram_err_eq (s0 : MonitorCore) (t : ℚ) (env : OSEnv)
    (s2 se : MonitorCore) (c1 c2 : Nat)
    (hc : cpu_step (mem_phase s0 t env.app_memory_mb) t env.cpu_query = (Except.ok s2, c1))
    (hr : ram_step s2 t env.ram_query = (Except.error se, c2)) :
    get_lightweight_metrics s0 t env = ⟨se, none, ⟨c1, c2, 0, 0⟩⟩ := by
  simp only [get_lightweight_metrics, hc, hr]

/-- Per-call sampling-event counts never exceed one per metric kind. -/
theorem glm_count_le (s : MonitorCore) (t : ℚ) (env : OSEnv) :
    (get_lightweight_metrics s t env).count.cpu ≤ 1
    ∧ (get_lightweight_metrics s t env).count.ram ≤ 1
    ∧ (get_lightweight_metrics s t env).count.disk ≤ 1
    ∧ (get_lightweight_metrics s t env).count.temp ≤ 1 := by
  obtain ⟨p1, l1, c1, hc1, _, _, hcase⟩ :=
    cpu_step_pair (mem_phase s t env.app_memory_mb) t env.cpu_query
  rcases hcase with hc | ⟨_, hc⟩
  · obtain ⟨p2, l2, c2, hc2, _, _, hrcase⟩ := ram_step_pair _ t env.ram_query
    rcases hrcase with hr | ⟨_, hr⟩
    · obtain ⟨p3, l3, c3, hc3, _, _, hd⟩ :=
        disk_step_pair _ t env.disk_query_primary env.disk_query_home
      obtain ⟨p4, l4, c4, hc4, _, ht⟩ := temp_step_pair _ t env.temp_query
      rw [glm_ok_eq s t env _ _ _ _ _ _ _ _ hc hr hd ht]
      exact ⟨hc1, hc2, hc3, hc4⟩
    · rw [glm_ram_err_eq s t env _ _ _ _ hc hr]
      exact ⟨hc1, hc2, Nat.zero_le 1, Nat.zero_le 1⟩
  · rw [glm_cpu_err_eq s t env _ _ hc]
    exact ⟨hc1, Nat.zero_le 1, Nat.zero_le 1, Nat.zero_le 1⟩

/-- One snapshot call keeps the intervals the memory-limit phase produced
and never touches the totals or the temperature-availability flag. -/
theorem glm_frame (s : MonitorCore) (t : ℚ) (env : OSEnv) :
    (get_lightweight_metrics s t env).state.cpu_interval
      = (mem_phase s t env.app_memory_mb).cpu_interval
    ∧ (get_lightweight_metrics s t env).state.ram_interval
      = (mem_phase s t env.app_memory_mb).ram_interval
    ∧ (get_lightweight_metrics s t env).state.disk_interval
      = (mem_phase s t env.app_memory_mb).disk_interval
    ∧ (get_lightweight_metrics s t env).state.temp_available = s.temp_available
    ∧ (get_lightweight_metrics s t env).state.ram_total_gb = s.ram_total_gb
    ∧ (get_lightweight_metrics s t env).state.disk_total_gb = s.disk_total_gb := by
  obtain ⟨_, _, _, _, _, _, _, _, _, hgb1, hgb2, hta⟩ :=
    mem_phase_frame s t env.app_memory_mb
  obtain ⟨p1, l1, c1, _, _, _, hcase⟩ :=
    cpu_step_pair (mem_phase s t env.app_memory_mb) t env.cpu_query
  rcases hcase with hc | ⟨_, hc⟩
  · obtain ⟨p2, l2, c2, _, _, _, hrcase⟩ := ram_step_pair _ t env.ram_query
    rcases hrcase with hr | ⟨_, hr⟩
    · obtain ⟨p3, l3, c3, _, _, _, hd⟩ :=
        disk_step_pair _ t env.disk_query_primary env.disk_query_home
      obtain ⟨p4, l4, c4, _, _, ht⟩ := temp_step_pair _ t env.temp_query
      rw [glm_ok_eq s t env _ _ _ _ _ _ _ _ hc hr hd ht]
      exact ⟨rfl, rfl, rfl, hta, hgb1, hgb2⟩
    · rw [glm_ram_err_eq s t env _ _ _ _ hc hr]
      exact ⟨rfl, rfl, rfl, hta, hgb1, hgb2⟩
  · rw [glm_cpu_err_eq s t env _ _ hc]
    exact ⟨rfl, rfl, rfl, hta, hgb1, hgb2⟩

/-- When the CPU staleness window has not elapsed (and the interval is at
most its widened value, as in every reachable state), a snapshot performs
no CPU sampling event and leaves the CPU cache and timestamp unchanged. -/
theorem glm_cpu_skip (s : MonitorCore) (t : ℚ) (env : OSEnv)
    (hb : s.cpu_interval ≤ 10) (h : t - s.last_cpu_time < s.cpu_interval) :
    (get_lightweight_metrics s t env).count.cpu = 0
    ∧ (get_lightweight_metrics s t env).state.cpu_percent = s.cpu_percent
    ∧ (get_lightweight_metrics s t env).state.last_cpu_time = s.last_cpu_time
    ∧ ∀ m, (get_lightweight_metrics s t env).metrics = some m →
        m.cpu = s.cpu_percent := by
  obtain ⟨hp, _, _, _, _, hlc, _, _, _, _, _, _⟩ :=
    mem_phase_frame s t env.app_memory_mb
  have h1 : t - (mem_phase s t env.app_memory_mb).last_cpu_time
      < (mem_phase s t env.app_memory_mb).cpu_interval := by
    rw [hlc]
    rcases mem_phase_cases s t env.app_memory_mb with he | he <;> rw [he]
    · exact h
    · exact lt_of_lt_of_le h (le_trans hb (le_of_eq rfl))
  have hc := cpu_step_skip (mem_phase s t env.app_memory_mb) t env.cpu_query h1
  obtain ⟨p2, l2, c2, _, _, _, hrcase⟩ :=
    ram_step_pair (mem_phase s t env.app_memory_mb) t env.ram_query
  rcases hrcase with hr | ⟨_, hr⟩
  · obtain ⟨p3, l3, c3, _, _, _, hd⟩ :=
      disk_step_pair _ t env.disk_query_primary env.disk_query_home
    obtain ⟨p4, l4, c4, _, _, ht⟩ := temp_step_pair _ t env.temp_query
    rw [glm_ok_eq s t env _ _ _ _ _ _ _ _ hc hr hd ht]
    refine ⟨rfl, hp, hlc, ?_⟩
    intro m hm
    cases hm
    exact hp
  · rw [glm_ram_err_eq s t env _ _ _ _ hc hr]
    refine ⟨rfl, hp, hlc, ?_⟩
    intro m hm
    cases hm

/-- When the RAM staleness window has not elapsed (interval at most its
widened value), a snapshot performs no RAM sampling event and leaves the
RAM cache and timestamp unchanged. -/
theorem glm_ram_skip (s : MonitorCore) (t : ℚ) (env : OSEnv)
    (hb : s.ram_interval ≤ 15) (h : t - s.last_ram_time < s.ram_interval) :
    (get_lightweight_metrics s t env).count.ram = 0
    ∧ (get_lightweight_metrics s t env).state.ram_percent = s.ram_percent
    ∧ (get_lightweight_metrics s t env).state.last_ram_time = s.last_ram_time
    ∧ ∀ m, (get_lightweight_metrics s t env).metrics = some m →
        m.ram = s.ram_percent := by
  obtain ⟨_, hp, _, _, _, _, hlr, _, _, _, _, _⟩ :=
    mem_phase_frame s t env.app_memory_mb
  have h1 : ∀ s2 : MonitorCore,
      s2.last_ram_time = (mem_phase s t env.app_memory_mb).last_ram_time →
      s2.ram_interval = (mem_phase s t env.app_memory_mb).ram_interval →
      t - s2.last_ram_time < s2.ram_interval := by
    intro s2 e1 e2
    rw [e1, e2, hlr]
    rcases mem_phase_cases s t env.app_memory_mb with he | he <;> rw [he]
    · exact h
    · exact lt_of_lt_of_le h (le_trans hb (le_of_eq rfl))
  obtain ⟨p1, l1, c1, _, _, _, hcase⟩ :=
    cpu_step_pair (mem_phase s t env.app_memory_mb) t env.cpu_query
  rcases hcase with hc | ⟨_, hc⟩
  · have hr := ram_step_skip
      { mem_phase s t env.app_memory_mb with cpu_percent := p1, last_cpu_time := l1 }
      t env.ram_query (h1 _ rfl rfl)
    obtain ⟨p3, l3, c3, _, _, _, hd⟩ :=
      disk_step_pair _ t env.disk_query_primary env.disk_query_home
    obtain ⟨p4, l4, c4, _, _, ht⟩ := temp_step_pair _ t env.temp_query
    rw [glm_ok_eq s t env _ _ _ _ _ _ _ _ hc hr hd ht]
    refine ⟨rfl, hp, hlr, ?_⟩
    intro m hm
    cases hm
    exact hp
  · rw [glm_cpu_err_eq s t env _ _ hc]
    refine ⟨rfl, hp, hlr, ?_⟩
    intro m hm
    cases hm

/-- When the disk staleness window has not elapsed (interval at most its
widened value), a snapshot performs no disk sampling event and leaves the
disk cache and timestamp unchanged. -/
theorem glm_disk_skip (s : MonitorCore) (t : ℚ) (env : OSEnv)
    (hb : s.disk_interval ≤ 20) (h : t - s.last_disk_time < s.disk_interval) :
    (get_lightweight_metrics s t env).count.disk = 0
    ∧ (get_lightweight_metrics s t env).state.disk_percent = s.disk_percent
    ∧ (get_lightweight_metrics s t env).state.last_disk_time = s.last_disk_time
    ∧ ∀ m, (get_lightweight_metrics s t env).metrics = some m →
        m.disk = s.disk_percent := by
  obtain ⟨_, _, hp, _, _, _, _, hld, _, _, _, _⟩ :=
    mem_phase_frame s t env.app_memory_mb
  have h1 : ∀ s3 : MonitorCore,
      s3.last_disk_time = (mem_phase s t env.app_memory_mb).last_disk_time →
      s3.disk_interval = (mem_phase s t env.app_memory_mb).disk_interval →
      t - s3.last_disk_time < s3.disk_interval := by
    intro s3 e1 e2
    rw [e1, e2, hld]
    rcases mem_phase_cases s t env.app_memory_mb with he | he <;> rw [he]
    · exact h
    · exact lt_of_lt_of_le h (le_trans hb (le_of_eq rfl))
  obtain ⟨p1, l1, c1, _, _, _, hcase⟩ :=
    cpu_step_pair (mem_phase s t env.app_memory_mb) t env.cpu_query
  rcases hcase with hc | ⟨_, hc⟩
  · obtain ⟨p2, l2, c2, _, _, _, hrcase⟩ := ram_step_pair _ t env.ram_query
    rcases hrcase with hr | ⟨_, hr⟩
    · have hd := disk_step_skip
        { { mem_phase s t env.app_memory_mb with
            cpu_percent := p1, last_cpu_time := l1 } with
          ram_percent := p2, last_ram_time := l2 }
        t env.disk_query_primary env.disk_query_home (h1 _ rfl rfl)
      obtain ⟨p4, l4, c4, _, _, ht⟩ := temp_step_pair _ t env.temp_query
      rw [glm_ok_eq s t env _ _ _ _ _ _ _ _ hc hr hd ht]
      refine ⟨rfl, hp, hld, ?_⟩
      intro m hm
      cases hm
      exact hp
    · rw [glm_ram_err_eq s t env _ _ _ _ hc hr]
      refine ⟨rfl, hp, hld, ?_⟩
      intro m hm
      cases hm
  · rw [glm_cpu_err_eq s t env _ _ hc]
    refine ⟨rfl, hp, hld, ?_⟩
    intro m hm
    cases hm

/-- When the fixed 10-second temperature window has not elapsed, a
snapshot performs no temperature sampling event and leaves the temperature
cache and timestamp unchanged. -/
theorem glm_temp_skip (s : MonitorCore) (t : ℚ) (env : OSEnv)
    (h : t - s.last_temp_time < 10) :
    (get_lightweight_metrics s t env).count.temp = 0
    ∧ (get_lightweight_metrics s t env).state.temp_celsius = s.temp_celsius
    ∧ (get_lightweight_metrics s t env).state.last_temp_time = s.last_temp_time
    ∧ ∀ m, (get_lightweight_metrics s t env).metrics = some m →
        m.temp = (if s.temp_available = true then some s.temp_celsius else none) := by
  obtain ⟨_, _, _, hp, _, _, _, _, hlt, _, _, hta⟩ :=
    mem_phase_frame s t env.app_memory_mb
  obtain ⟨p1, l1, c1, _, _, _, hcase⟩ :=
    cpu_step_pair (mem_phase s t env.app_memory_mb) t env.cpu_query
  rcases hcase with hc | ⟨_, hc⟩
  · obtain ⟨p2, l2, c2, _, _, _, hrcase⟩ := ram_step_pair _ t env.ram_query
    rcases hrcase with hr | ⟨_, hr⟩
    · obtain ⟨p3, l3, c3, _, _, _, hd⟩ :=
        disk_step_pair _ t env.disk_query_primary env.disk_query_home
      have ht := temp_step_skip
        ({ { { mem_phase s t env.app_memory_mb with
                cpu_percent := p1, last_cpu_time := l1 } with
              ram_percent := p2, last_ram_time := l2 } with
            disk_percent := p3, last_disk_time := l3 }) t env.temp_query
        (by
          show t - (mem_phase s t env.app_memory_mb).last_temp_time < 10
          rw [hlt]
          exact h)
      rw [glm_ok_eq s t env _ _ _ _ _ _ _ _ hc hr hd ht]
      refine ⟨rfl, hp, hlt, ?_⟩
      intro m hm
      cases hm
      show (if (mem_phase s t env.app_memory_mb).temp_available = true
            then some (mem_phase s t env.app_memory_mb).temp_celsius else none)
          = (if s.temp_available = true then some s.temp_celsius else none)
      rw [hta, hp]
    · rw [glm_ram_err_eq s t env _ _ _ _ hc hr]
      refine ⟨rfl, hp, hlt, ?_⟩
      intro m hm
      cases hm
  · rw [glm_cpu_err_eq s t env _ _ hc]
    refine ⟨rfl, hp, hlt, ?_⟩
    intro m hm
    cases hm

/-- When the temperature-availability flag is false, a snapshot performs
no temperature sampling event, keeps the flag false, and reports the
temperature field as absent. -/
theorem glm_temp_off (s : MonitorCore) (t : ℚ) (env : OSEnv)
    (h : s.temp_available = false) :
    (get_lightweight_metrics s t env).count.temp = 0
    ∧ (get_lightweight_metrics s t env).state.temp_available = false
    ∧ ∀ m, (get_lightweight_metrics s t env).metrics = some m → m.temp = none := by
  obtain ⟨_, _, _, _, _, _, _, _, _, _, _, hta⟩ :=
    mem_phase_frame s t env.app_memory_mb
  obtain ⟨p1, l1, c1, _, _, _, hcase⟩ :=
    cpu_step_pair (mem_phase s t env.app_memory_mb) t env.cpu_query
  rcases hcase with hc | ⟨_, hc⟩
  · obtain ⟨p2, l2, c2, _, _, _, hrcase⟩ := ram_step_pair _ t env.ram_query
    rcases hrcase with hr | ⟨_, hr⟩
    · obtain ⟨p3, l3, c3, _, _, _, hd⟩ :=
        disk_step_pair _ t env.disk_query_primary env.disk_query_home
      have hoff : ({ { { mem_phase s t env.app_memory_mb with
              cpu_percent := p1, last_cpu_time := l1 } with
            ram_percent := p2, last_ram_time := l2 } with
          disk_percent := p3, last_disk_time := l3 } : MonitorCore).temp_available
          = false := hta.trans h
      have ht := temp_step_off _ t env.temp_query hoff
      rw [glm_ok_eq s t env _ _ _ _ _ _ _ _ hc hr hd ht]
      refine ⟨rfl, hta.trans h, ?_⟩
      intro m hm
      cases hm
      show (if (mem_phase s t env.app_memory_mb).temp_available = true
            then some (mem_phase s t env.app_memory_mb).temp_celsius else none) = none
      rw [hta.trans h]
      simp
    · rw [glm_ram_err_eq s t env _ _ _ _ hc hr]
      refine ⟨rfl, hta.trans h, ?_⟩
      intro m hm
      cases hm
  · rw [glm_cpu_err_eq s t env _ _ hc]
    refine ⟨rfl, hta.trans h, ?_⟩
    intro m hm
    cases hm

/-- C4: for all inputs the health score equals
`clamp(100 - (cpu*0.3 + ram*0.4 + disk*0.3), 0, 100)`; it always lies in
`[0, 100]`; it is `100` at `(0,0,0)` and `0` at `(100,100,100)`; and it is
a pure function of the three percentages alone. -/
theorem health_clamped_formula (cpu ram disk : ℚ) :
    calculate_health cpu ram disk
      = max 0 (min 100 (100 - (cpu * 0.3 + ram * 0.4 + disk * 0.3)))
    ∧ 0 ≤ calculate_health cpu ram disk
    ∧ calculate_health cpu ram disk ≤ 100
    ∧ calculate_health 0 0 0 = 100
    ∧ calculate_health 100 100 100 = 0 := by
  refine ⟨rfl, le_max_left _ _, max_le (by norm_num) (min_le_left _ _), ?_, ?_⟩
  · norm_num [calculate_health, min_def, max_def]
  · norm_num [calculate_health, min_def, max_def]

/-- C7: whenever the process resident-memory reading exceeds 30 MB,
`get_recommendations` skips rule evaluation and returns the empty list,
regardless of the cached metric state. -/
theorem rec_memory_guard_empty (s : MonitorCore) (m : ℚ) (h : m > 30) :
    get_recommendations s m = [] := by
  unfold get_recommendations
  rw [if_pos h]

/-- Witness for C7: a concrete state with critical disk usage and a 31 MB
memory reading still yields no recommendations. -/
theorem rec_memory_guard_empty_witness :
    get_recommendations { base_state with disk_percent := 96 } 31 = [] :=
  rec_memory_guard_empty _ 31 (by norm_num)

/-- C2 counterexample: at cached `disk=96, ram=50, cpu=50` with the guard
off, `get_recommendations` returns a list of length 2 (both the
disk-critical and the disk-high rule match), not exactly one tip. -/
theorem rec_disk96_two_not_one :
    (get_recommendations
      { base_state with cpu_percent := 50, ram_percent := 50, disk_percent := 96 } 1).length = 2
    ∧ ¬ (get_recommendations
      { base_state with cpu_percent := 50, ram_percent := 50, disk_percent := 96 } 1).length = 1 := by
  refine ⟨?_, ?_⟩ <;> decide

/-- C2 (amended): at cached `disk=96, ram=50, cpu=50` with the guard off,
`get_recommendations` returns exactly two tips, the priority-1 disk-critical
tip first, ahead of the lower-priority disk-high match. -/
theorem rec_disk_critical_first (s : MonitorCore) (m : ℚ)
    (hd : s.disk_percent = 96) (hr : s.ram_percent = 50)
    (hc : s.cpu_percent = 50) (hm : ¬ m > 30) :
    get_recommendations s m
      = [("ðŸ”´ Low disk space", "Clean temporary files"),
         ("ðŸŸ¡ Low free space", "Free up disk space")] := by
  unfold get_recommendations recommendation_rules
  rw [if_neg hm, hd, hr, hc]
  rfl

/-- Witness for C2's amended theorem at a concrete state. -/
theorem rec_disk_critical_first_witness :
    get_recommendations
      { base_state with cpu_percent := 50, ram_percent := 50, disk_percent := 96 } 1
      = [("ðŸ”´ Low disk space", "Clean temporary files"),
         ("ðŸŸ¡ Low free space", "Free up disk space")] :=
  rec_disk_critical_first _ 1 rfl rfl rfl (by norm_num)

/-- C9: if none of the five rule predicates holds on the cached
percentages and the guard is off, `get_recommendations` returns exactly the
first 2 entries of the fixed ordered list of 3 generic maintenance tips, in
that order. -/
theorem rec_no_match_generic_tips (s : MonitorCore) (m : ℚ)
    (h1 : ¬ s.disk_percent > 95) (h2 : ¬ s.disk_percent > 85)
    (h3 : ¬ s.ram_percent > 85) (h4 : ¬ s.cpu_percent > 90)
    (h5 : ¬ s.ram_percent > 75) (hm : ¬ m > 30) :
    get_recommendations s m = general_tips.take 2
    ∧ get_recommendations s m
      = [("ðŸ’¡ System Optimization", "Regularly clean temporary files"),
         ("ðŸ’¡ Performance", "Close unused programs")]
    ∧ general_tips.length = 3 := by
  have e : get_recommendations s m = general_tips.take 2 := by
    unfold get_recommendations recommendation_rules
    rw [if_neg hm, decide_eq_false h1, decide_eq_false h2, decide_eq_false h3,
        decide_eq_false h4, decide_eq_false h5]
    rfl
  exact ⟨e, by rw [e]; rfl, rfl⟩

/-- Witness for C9 at cached `cpu=10, ram=10, disk=10`. -/
theorem rec_no_match_generic_tips_witness :
    get_recommendations
      { base_state with cpu_percent := 10, ram_percent := 10, disk_percent := 10 } 1
      = general_tips.take 2
    ∧ get_recommendations
      { base_state with cpu_percent := 10, ram_percent := 10, disk_percent := 10 } 1
      = [("ðŸ’¡ System Optimization", "Regularly clean temporary files"),
         ("ðŸ’¡ Performance", "Close unused programs")]
    ∧ general_tips.length = 3 :=
  rec_no_match_generic_tips _ 1 (by norm_num) (by norm_num) (by norm_num)
    (by norm_num) (by norm_num) (by norm_num)

/-- C10: the memory-pressure optimization (`check_memory_limit` and
`optimize_memory_usage`) modifies only the three sampling-interval fields:
every cached metric value, every last-sample timestamp, the totals and the
temperature-availability flag are unchanged. -/
theorem memory_optimization_frame (s : MonitorCore) (m : ℚ) :
    ((check_memory_limit s m).1.cpu_percent = s.cpu_percent
     ∧ (check_memory_limit s m).1.ram_percent = s.ram_percent
     ∧ (check_memory_limit s m).1.disk_percent = s.disk_percent
     ∧ (check_memory_limit s m).1.temp_celsius = s.temp_celsius
     ∧ (check_memory_limit s m).1.health = s.health
     ∧ (check_memory_limit s m).1.last_cpu_time = s.last_cpu_time
     ∧ (check_memory_limit s m).1.last_ram_time = s.last_ram_time
     ∧ (check_memory_limit s m).1.last_disk_time = s.last_disk_time
     ∧ (check_memory_limit s m).1.last_temp_time = s.last_temp_time
     ∧ (check_memory_limit s m).1.ram_total_gb = s.ram_total_gb
     ∧ (check_memory_limit s m).1.disk_total_gb = s.disk_total_gb
     ∧ (check_memory_limit s m).1.temp_available = s.temp_available)
    ∧ ((optimize_memory_usage s).cpu_percent = s.cpu_percent
     ∧ (optimize_memory_usage s).ram_percent = s.ram_percent
     ∧ (optimize_memory_usage s).disk_percent = s.disk_percent
     ∧ (optimize_memory_usage s).temp_celsius = s.temp_celsius
     ∧ (optimize_memory_usage s).health = s.health
     ∧ (optimize_memory_usage s).last_cpu_time = s.last_cpu_time
     ∧ (optimize_memory_usage s).last_ram_time = s.last_ram_time
     ∧ (optimize_memory_usage s).last_disk_time = s.last_disk_time
     ∧ (optimize_memory_usage s).last_temp_time = s.last_temp_time
     ∧ (optimize_memory_usage s).ram_total_gb = s.ram_total_gb
     ∧ (optimize_memory_usage s).disk_total_gb = s.disk_total_gb
     ∧ (optimize_memory_usage s).temp_available = s.temp_available) := by
  unfold check_memory_limit optimize_memory_usage
  split <;> simp

/-- A used-over-total percentage with `0 ≤ used ≤ total` and a nonzero
total lies in `[0, 100]`. -/
theorem pct_of_pair (u tot : ℚ) (hu : 0 ≤ u) (hut : u ≤ tot) (h0 : tot ≠ 0) :
    0 ≤ u / tot * 100 ∧ u / tot * 100 ≤ 100 := by
  have htpos : 0 < tot := lt_of_le_of_ne (le_trans hu hut) (Ne.symm h0)
  have hdiv0 : 0 ≤ u / tot := div_nonneg hu (le_of_lt htpos)
  have hdiv1 : u / tot ≤ 1 := (div_le_one htpos).mpr hut
  constructor
  · exact mul_nonneg hdiv0 (by norm_num)
  · calc u / tot * 100 ≤ 1 * 100 := mul_le_mul_of_nonneg_right hdiv1 (by norm_num)
      _ = 100 := one_mul 100

/-- The home-directory fallback percent is in range when every successful
query reports `0 ≤ used ≤ total`. -/
theorem disk_fallback_range (qh : Option (ℚ × ℚ))
    (hh : ∀ u tot, qh = some (u, tot) → 0 ≤ u ∧ u ≤ tot) :
    0 ≤ disk_fallback qh ∧ disk_fallback qh ≤ 100 := by
  cases qh with
  | none => norm_num [disk_fallback]
  | some p =>
    obtain ⟨u, tot⟩ := p
    obtain ⟨hu, hut⟩ := hh u tot rfl
    have e : disk_fallback (some (u, tot)) = if tot = 0 then 0 else u / tot * 100 := rfl
    rw [e]
    by_cases h0 : tot = 0
    · rw [if_pos h0]
      norm_num
    · rw [if_neg h0]
      exact pct_of_pair u tot hu hut h0

/-- The stored disk percent is in range when every successful query
reports `0 ≤ used ≤ total`. -/
theorem disk_result_range (qp qh : Option (ℚ × ℚ))
    (hp : ∀ u tot, qp = some (u, tot) → 0 ≤ u ∧ u ≤ tot)
    (hh : ∀ u tot, qh = some (u, tot) → 0 ≤ u ∧ u ≤ tot) :
    0 ≤ disk_result qp qh ∧ disk_result qp qh ≤ 100 := by
  cases qp with
  | none => exact disk_fallback_range qh hh
  | some p =>
    obtain ⟨u, tot⟩ := p
    obtain ⟨hu, hut⟩ := hp u tot rfl
    have e : disk_result (some (u, tot)) qh
        = if tot = 0 then disk_fallback qh else u / tot * 100 := rfl
    rw [e]
    by_cases h0 : tot = 0
    · rw [if_pos h0]
      exact disk_fallback_range qh hh
    · rw [if_neg h0]
      exact pct_of_pair u tot hu hut h0

/-- Once the three intervals stand at their widened values, every single
engine operation keeps them there. -/
theorem apply_op_keeps_widened (s : MonitorCore) (op : Op)
    (h1 : s.cpu_interval = 10) (h2 : s.ram_interval = 15)
    (h3 : s.disk_interval = 20) :
    (apply_op s op).cpu_interval = 10 ∧ (apply_op s op).ram_interval = 15
    ∧ (apply_op s op).disk_interval = 20 := by
  cases op with
  | snapshot t env =>
    obtain ⟨e1, e2, e3, _, _, _⟩ := glm_frame s t env
    have hm : (mem_phase s t env.app_memory_mb).cpu_interval = 10
        ∧ (mem_phase s t env.app_memory_mb).ram_interval = 15
        ∧ (mem_phase s t env.app_memory_mb).disk_interval = 20 := by
      rcases mem_phase_cases s t env.app_memory_mb with he | he <;> rw [he]
      · exact ⟨h1, h2, h3⟩
      · exact ⟨rfl, rfl, rfl⟩
    exact ⟨e1.trans hm.1, e2.trans hm.2.1, e3.trans hm.2.2⟩
  | check_memory m =>
    simp only [apply_op]
    unfold check_memory_limit
    by_cases h : m > 25
    · rw [if_pos h]
      exact ⟨rfl, rfl, rfl⟩
    · rw [if_neg h]
      exact ⟨h1, h2, h3⟩
  | optimize => exact ⟨rfl, rfl, rfl⟩
  | clear_caches => exact ⟨h1, h2, h3⟩
  | recommendations m => exact ⟨h1, h2, h3⟩

/-- Once the three intervals stand at their widened values, any sequence
of engine operations keeps them there. -/
theorem run_ops_keeps_widened (ops : List Op) (s : MonitorCore)
    (h1 : s.cpu_interval = 10) (h2 : s.ram_interval = 15)
    (h3 : s.disk_interval = 20) :
    (run_ops s ops).cpu_interval = 10 ∧ (run_ops s ops).ram_interval = 15
    ∧ (run_ops s ops).disk_interval = 20 := by
  induction ops generalizing s with
  | nil => exact ⟨h1, h2, h3⟩
  | cons op rest ih =>
    obtain ⟨k1, k2, k3⟩ := apply_op_keeps_widened s op h1 h2 h3
    exact ih (apply_op s op) k1 k2 k3

/-- A state with the availability flag false never performs a temperature
sampling event along any sequence of snapshot calls, and every returned
dictionary reports the temperature as absent. -/
theorem run_snapshots_temp_off (calls : List (ℚ × OSEnv)) (s : MonitorCore)
    (h : s.temp_available = false) :
    (run_snapshots s calls).Forall
      (fun r => r.count.temp = 0 ∧ ∀ m, r.metrics = some m → m.temp = none) := by
  induction calls generalizing s with
  | nil => trivial
  | cons c rest ih =>
    obtain ⟨t, env⟩ := c
    obtain ⟨h0, h1, h2⟩ := glm_temp_off s t env h
    exact (List.forall_cons _ _ _).mpr
      ⟨⟨h0, h2⟩, ih (get_lightweight_metrics s t env).state h1⟩

/-- C3: for every metric kind, when `now - last_sample_time < interval`
for that kind (with each interval at most its widened value, as in every
reachable state) the snapshot performs no OS query for the metric and
returns its cached value unchanged; hence a second snapshot within the
metric's window after the first one triggers at most one OS query in
total for that metric. -/
theorem staleness_gate_no_requery (s : MonitorCore) (t : ℚ) (env : OSEnv)
    (hb1 : s.cpu_interval ≤ 10) (hb2 : s.ram_interval ≤ 15)
    (hb3 : s.disk_interval ≤ 20) :
    ((t - s.last_cpu_time < s.cpu_interval →
        (get_lightweight_metrics s t env).count.cpu = 0
        ∧ (get_lightweight_metrics s t env).state.cpu_percent = s.cpu_percent
        ∧ ∀ m, (get_lightweight_metrics s t env).metrics = some m →
            m.cpu = s.cpu_percent)
     ∧ (t - s.last_ram_time < s.ram_interval →
        (get_lightweight_metrics s t env).count.ram = 0
        ∧ (get_lightweight_metrics s t env).state.ram_percent = s.ram_percent
        ∧ ∀ m, (get_lightweight_metrics s t env).metrics = some m →
            m.ram = s.ram_percent)
     ∧ (t - s.last_disk_time < s.disk_interval →
        (get_lightweight_metrics s t env).count.disk = 0
        ∧ (get_lightweight_metrics s t env).state.disk_percent = s.disk_percent
        ∧ ∀ m, (get_lightweight_metrics s t env).metrics = some m →
            m.disk = s.disk_percent)
     ∧ (t - s.last_temp_time < 10 →
        (get_lightweight_metrics s t env).count.temp = 0
        ∧ (get_lightweight_metrics s t env).state.temp_celsius = s.temp_celsius
        ∧ ∀ m, (get_lightweight_metrics s t env).metrics = some m →
            m.temp = (if s.temp_available = true then some s.temp_celsius else none)))
    ∧ ((∀ t2 env2,
          t2 - (get_lightweight_metrics s t env).state.last_cpu_time
            < (get_lightweight_metrics s t env).state.cpu_interval →
          (get_lightweight_metrics s t env).count.cpu
            + (get_lightweight_metrics (get_lightweight_metrics s t env).state t2 env2).count.cpu ≤ 1)
       ∧ (∀ t2 env2,
          t2 - (get_lightweight_metrics s t env).state.last_ram_time
            < (get_lightweight_metrics s t env).state.ram_interval →
          (get_lightweight_metrics s t env).count.ram
            + (get_lightweight_metrics (get_lightweight_metrics s t env).state t2 env2).count.ram ≤ 1)
       ∧ (∀ t2 env2,
          t2 - (get_lightweight_metrics s t env).state.last_disk_time
            < (get_lightweight_metrics s t env).state.disk_interval →
          (get_lightweight_metrics s t env).count.disk
            + (get_lightweight_metrics (get_lightweight_metrics s t env).state t2 env2).count.disk ≤ 1)
       ∧ (∀ t2 env2,
          t2 - (get_lightweight_metrics s t env).state.last_temp_time < 10 →
          (get_lightweight_metrics s t env).count.temp
            + (get_lightweight_metrics (get_lightweight_metrics s t env).state t2 env2).count.temp ≤ 1)) := by
  obtain ⟨hc1, hr1, hd1, ht1⟩ := glm_count_le s t env
  obtain ⟨e1, e2, e3, _, _, _⟩ := glm_frame s t env
  obtain ⟨i1, i2, i3⟩ := mem_phase_interval_le s t env.app_memory_mb hb1 hb2 hb3
  refine ⟨⟨?_, ?_, ?_, ?_⟩, ?_, ?_, ?_, ?_⟩
  · intro h
    obtain ⟨a, b, _, d⟩ := glm_cpu_skip s t env hb1 h
    exact ⟨a, b, d⟩
  · intro h
    obtain ⟨a, b, _, d⟩ := glm_ram_skip s t env hb2 h
    exact ⟨a, b, d⟩
  · intro h
    obtain ⟨a, b, _, d⟩ := glm_disk_skip s t env hb3 h
    exact ⟨a, b, d⟩
  · intro h
    obtain ⟨a, b, _, d⟩ := glm_temp_skip s t env h
    exact ⟨a, b, d⟩
  · intro t2 env2 h2
    obtain ⟨z, _, _, _⟩ :=
      glm_cpu_skip (get_lightweight_metrics s t env).state t2 env2 (e1 ▸ i1) h2
    omega
  · intro t2 env2 h2
    obtain ⟨z, _, _, _⟩ :=
      glm_ram_skip (get_lightweight_metrics s t env).state t2 env2 (e2 ▸ i2) h2
    omega
  · intro t2 env2 h2
    obtain ⟨z, _, _, _⟩ :=
      glm_disk_skip (get_lightweight_metrics s t env).state t2 env2 (e3 ▸ i3) h2
    omega
  · intro t2 env2 h2
    obtain ⟨z, _, _, _⟩ :=
      glm_temp_skip (get_lightweight_metrics s t env).state t2 env2 h2
    omega

/-- Witness for C3 at the base state, time 1 and the benign environment:
all four windows are still fresh. -/
theorem staleness_gate_no_requery_witness :
    ((1 - base_state.last_cpu_time < base_state.cpu_interval →
        (get_lightweight_metrics base_state 1 base_env).count.cpu = 0
        ∧ (get_lightweight_metrics base_state 1 base_env).state.cpu_percent = base_state.cpu_percent
        ∧ ∀ m, (get_lightweight_metrics base_state 1 base_env).metrics = some m →
            m.cpu = base_state.cpu_percent)
     ∧ (1 - base_state.last_ram_time < base_state.ram_interval →
        (get_lightweight_metrics base_state 1 base_env).count.ram = 0
        ∧ (get_lightweight_metrics base_state 1 base_env).state.ram_percent = base_state.ram_percent
        ∧ ∀ m, (get_lightweight_metrics base_state 1 base_env).metrics = some m →
            m.ram = base_state.ram_percent)
     ∧ (1 - base_state.last_disk_time < base_state.disk_interval →
        (get_lightweight_metrics base_state 1 base_env).count.disk = 0
        ∧ (get_lightweight_metrics base_state 1 base_env).state.disk_percent = base_state.disk_percent
        ∧ ∀ m, (get_lightweight_metrics base_state 1 base_env).metrics = some m →
            m.disk = base_state.disk_percent)
     ∧ (1 - base_state.last_temp_time < 10 →
        (get_lightweight_metrics base_state 1 base_env).count.temp = 0
        ∧ (get_lightweight_metrics base_state 1 base_env).state.temp_celsius = base_state.temp_celsius
        ∧ ∀ m, (get_lightweight_metrics base_state 1 base_env).metrics = some m →
            m.temp = (if base_state.temp_available = true
                      then some base_state.temp_celsius else none)))
    ∧ ((∀ t2 env2,
          t2 - (get_lightweight_metrics base_state 1 base_env).state.last_cpu_time
            < (get_lightweight_metrics base_state 1 base_env).state.cpu_interval →
          (get_lightweight_metrics base_state 1 base_env).count.cpu
            + (get_lightweight_metrics
                (get_lightweight_metrics base_state 1 base_env).state t2 env2).count.cpu ≤ 1)
       ∧ (∀ t2 env2,
          t2 - (get_lightweight_metrics base_state 1 base_env).state.last_ram_time
            < (get_lightweight_metrics base_state 1 base_env).state.ram_interval →
          (get_lightweight_metrics base_state 1 base_env).count.ram
            + (get_lightweight_metrics
                (get_lightweight_metrics base_state 1 base_env).state t2 env2).count.ram ≤ 1)
       ∧ (∀ t2 env2,
          t2 - (get_lightweight_metrics base_state 1 base_env).state.last_disk_time
            < (get_lightweight_metrics base_state 1 base_env).state.disk_interval →
          (get_lightweight_metrics base_state 1 base_env).count.disk
            + (get_lightweight_metrics
                (get_lightweight_metrics base_state 1 base_env).state t2 env2).count.disk ≤ 1)
       ∧ (∀ t2 env2,
          t2 - (get_lightweight_metrics base_state 1 base_env).state.last_temp_time < 10 →
          (get_lightweight_metrics base_state 1 base_env).count.temp
            + (get_lightweight_metrics
                (get_lightweight_metrics base_state 1 base_env).state t2 env2).count.temp ≤ 1)) :=
  staleness_gate_no_requery base_state 1 base_env (by norm_num [base_state])
    (by norm_num [base_state]) (by norm_num [base_state])

/-- C6: when the construction-time temperature capability check reports
unavailable, no temperature sampling event ever happens over any sequence
of snapshot calls, and every returned dictionary reports the temperature
field as absent. -/
theorem temp_unavailable_never_queried (env0 : InitEnv) (calls : List (ℚ × OSEnv))
    (h : (mk_monitor_core env0).temp_available = false) :
    (run_snapshots (mk_monitor_core env0) calls).Forall
      (fun r => r.count.temp = 0 ∧ ∀ m, r.metrics = some m → m.temp = none) :=
  run_snapshots_temp_off calls (mk_monitor_core env0) h

/-- Witness for C6: a construction whose sensor check reports unavailable,
followed by two snapshot calls across elapsed intervals. -/
theorem temp_unavailable_never_queried_witness :
    (run_snapshots (mk_monitor_core ⟨none, none, none, some false⟩)
        [(20, base_env), (40, base_env)]).Forall
      (fun r => r.count.temp = 0 ∧ ∀ m, r.metrics = some m → m.temp = none) :=
  temp_unavailable_never_queried ⟨none, none, none, some false⟩
    [(20, base_env), (40, base_env)] rfl

/-- C8: a memory check above 25 MB widens the intervals to CPU 10 s, RAM
15 s, disk 20 s, and from then on no sequence of engine operations makes
any interval smaller again. -/
theorem memory_limit_interval_ratchet (s : MonitorCore) (m : ℚ) (h : m > 25) :
    ((check_memory_limit s m).1.cpu_interval = 10
     ∧ (check_memory_limit s m).1.ram_interval = 15
     ∧ (check_memory_limit s m).1.disk_interval = 20)
    ∧ ∀ (s2 : MonitorCore) (ops : List Op),
        s2.cpu_interval = 10 → s2.ram_interval = 15 → s2.disk_interval = 20 →
        (run_ops s2 ops).cpu_interval = 10 ∧ (run_ops s2 ops).ram_interval = 15
          ∧ (run_ops s2 ops).disk_interval = 20 := by
  constructor
  · unfold check_memory_limit
    rw [if_pos h]
    exact ⟨rfl, rfl, rfl⟩
  · intro s2 ops e1 e2 e3
    exact run_ops_keeps_widened ops s2 e1 e2 e3

/-- C1 counterexample: starting from a cached disk percent of 50 with both
disk queries failing, the snapshot at time 100 sets the cached disk
percent to 0 (it does not retain 50) and stamps `last_disk_time` with the
current time (it does not leave it at 0); the call still returns a
dictionary, so no error reaches the caller. -/
theorem disk_failure_counterexample :
    (get_lightweight_metrics { base_state with disk_percent := 50 }
        100 fail_disk_env).state.disk_percent = 0
    ∧ ¬ (get_lightweight_metrics { base_state with disk_percent := 50 }
        100 fail_disk_env).state.disk_percent = 50
    ∧ (get_lightweight_metrics { base_state with disk_percent := 50 }
        100 fail_disk_env).state.last_disk_time = 100
    ∧ ¬ (get_lightweight_metrics { base_state with disk_percent := 50 }
        100 fail_disk_env).state.last_disk_time
        = ({ base_state with disk_percent := 50 } : MonitorCore).last_disk_time
    ∧ (get_lightweight_metrics { base_state with disk_percent := 50 }
        100 fail_disk_env).metrics.isSome = true := by
  norm_num [get_lightweight_metrics, mem_phase, int_trunc, check_memory_limit,
    optimize_memory_usage, cpu_step, ram_step, disk_step, temp_step, disk_result,
    disk_fallback, calculate_health, base_state, fail_disk_env]

set_option maxHeartbeats 2000000 in
/-- C1 (amended): when the disk window has elapsed and both the primary
and the home-directory disk queries fail while the CPU and RAM queries
succeed, the snapshot sets the cached disk percent to 0.0 (discarding the
previous cached value), updates `last_disk_time` to the current time, and
returns a dictionary reporting disk 0 with no error reaching the caller;
a failing temperature query likewise keeps the cached temperature but
still updates `last_temp_time` to the current time. -/
theorem disk_failure_zeroes_and_stamps (s : MonitorCore) (t : ℚ) (env : OSEnv)
    (hb : s.disk_interval ≤ 20) (hgate : t - s.last_disk_time ≥ 20)
    (hdp : env.disk_query_primary = none) (hdh : env.disk_query_home = none)
    (hcq : env.cpu_query.isSome = true) (hrq : env.ram_query.isSome = true) :
    (get_lightweight_metrics s t env).metrics.isSome = true
    ∧ (get_lightweight_metrics s t env).state.disk_percent = 0
    ∧ (get_lightweight_metrics s t env).state.last_disk_time = t
    ∧ (∀ m, (get_lightweight_metrics s t env).metrics = some m → m.disk = 0)
    ∧ (s.temp_available = true → t - s.last_temp_time ≥ 10 →
        env.temp_query = none →
        (get_lightweight_metrics s t env).state.temp_celsius = s.temp_celsius
        ∧ (get_lightweight_metrics s t env).state.last_temp_time = t) := by
  obtain ⟨_, _, _, htc, _, _, _, hld, hlt, _, _, hta⟩ :=
    mem_phase_frame s t env.app_memory_mb
  obtain ⟨p1, l1, c1, _, hcp⟩ :=
    cpu_step_ok_of_isSome (mem_phase s t env.app_memory_mb) t env.cpu_query hcq
  obtain ⟨p2, l2, c2, _, hrp⟩ := ram_step_ok_of_isSome
    { mem_phase s t env.app_memory_mb with cpu_percent := p1, last_cpu_time := l1 }
    t env.ram_query hrq
  have hg1 : t - ({ { mem_phase s t env.app_memory_mb with
        cpu_percent := p1, last_cpu_time := l1 } with
      ram_percent := p2, last_ram_time := l2 } : MonitorCore).last_disk_time
      ≥ ({ { mem_phase s t env.app_memory_mb with
        cpu_percent := p1, last_cpu_time := l1 } with
      ram_percent := p2, last_ram_time := l2 } : MonitorCore).disk_interval := by
    show t - (mem_phase s t env.app_memory_mb).last_disk_time
        ≥ (mem_phase s t env.app_memory_mb).disk_interval
    rw [hld]
    rcases mem_phase_cases s t env.app_memory_mb with he | he <;> rw [he]
    · exact le_trans hb hgate
    · exact hgate
  have hg2 : t - ({ { mem_phase s t env.app_memory_mb with
        cpu_percent := p1, last_cpu_time := l1 } with
      ram_percent := p2, last_ram_time := l2 } : MonitorCore).last_disk_time
      ≥ 10 := by
    show t - (mem_phase s t env.app_memory_mb).last_disk_time ≥ 10
    rw [hld]
    exact le_trans (by norm_num) hgate
  have hfire := disk_step_fire
    { { mem_phase s t env.app_memory_mb with
        cpu_percent := p1, last_cpu_time := l1 } with
      ram_percent := p2, last_ram_time := l2 }
    t env.disk_query_primary env.disk_query_home hg1 hg2
  obtain ⟨p4, l4, c4, _, _, htp⟩ := temp_step_pair
    { { { mem_phase s t env.app_memory_mb with
          cpu_percent := p1, last_cpu_time := l1 } with
        ram_percent := p2, last_ram_time := l2 } with
      disk_percent := disk_result env.disk_query_primary env.disk_query_home,
      last_disk_time := t }
    t env.temp_query
  have hglm := glm_ok_eq s t env _ _ _ _ _ _ _ _ hcp hrp hfire htp
  refine ⟨?_, ?_, ?_, ?_, ?_⟩
  · rw [hglm]
    rfl
  · rw [hglm]
    show disk_result env.disk_query_primary env.disk_query_home = 0
    rw [hdp, hdh]
    rfl
  · rw [hglm]
  · rw [hglm]
    intro m hm
    cases hm
    show disk_result env.disk_query_primary env.disk_query_home = 0
    rw [hdp, hdh]
    rfl
  · intro hava hwin htq
    have havail : ({ { { mem_phase s t env.app_memory_mb with
          cpu_percent := p1, last_cpu_time := l1 } with
        ram_percent := p2, last_ram_time := l2 } with
      disk_percent := disk_result env.disk_query_primary env.disk_query_home,
      last_disk_time := t } : MonitorCore).temp_available = true := hta.trans hava
    have hwin2 : t - ({ { { mem_phase s t env.app_memory_mb with
          cpu_percent := p1, last_cpu_time := l1 } with
        ram_percent := p2, last_ram_time := l2 } with
      disk_percent := disk_result env.disk_query_primary env.disk_query_home,
      last_disk_time := t } : MonitorCore).last_temp_time ≥ 10 := by
      show t - (mem_phase s t env.app_memory_mb).last_temp_time ≥ 10
      rw [hlt]
      exact hwin
    have hterr := temp_step_fire_err
      { { { mem_phase s t env.app_memory_mb with
            cpu_percent := p1, last_cpu_time := l1 } with
          ram_percent := p2, last_ram_time := l2 } with
        disk_percent := disk_result env.disk_query_primary env.disk_query_home,
        last_disk_time := t }
      t havail hwin2
    rw [← htq] at hterr
    have hglm2 := glm_ok_eq s t env _ _ _ _ _ _ _ _ hcp hrp hfire hterr
    rw [hglm2]
    exact ⟨htc, rfl⟩

/-- Witness for C1's amended theorem at a concrete state whose cached disk
percent is 50, time 100 and the failing-disk environment. -/
theorem disk_failure_zeroes_and_stamps_witness :
    (get_lightweight_metrics { base_state with disk_percent := 50 }
        100 fail_disk_env).metrics.isSome = true
    ∧ (get_lightweight_metrics { base_state with disk_percent := 50 }
        100 fail_disk_env).state.disk_percent = 0
    ∧ (get_lightweight_metrics { base_state with disk_percent := 50 }
        100 fail_disk_env).state.last_disk_time = 100
    ∧ (∀ m, (get_lightweight_metrics { base_state with disk_percent := 50 }
        100 fail_disk_env).metrics = some m → m.disk = 0)
    ∧ (({ base_state with disk_percent := 50 } : MonitorCore).temp_available = true →
        (100:ℚ) - ({ base_state with disk_percent := 50 } : MonitorCore).last_temp_time ≥ 10 →
        fail_disk_env.temp_query = none →
        (get_lightweight_metrics { base_state with disk_percent := 50 }
            100 fail_disk_env).state.temp_celsius
          = ({ base_state with disk_percent := 50 } : MonitorCore).temp_celsius
        ∧ (get_lightweight_metrics { base_state with disk_percent := 50 }
            100 fail_disk_env).state.last_temp_time = 100) :=
  disk_failure_zeroes_and_stamps { base_state with disk_percent := 50 } 100
    fail_disk_env (by norm_num [base_state]) (by norm_num [base_state])
    rfl rfl rfl rfl

/-- C5 counterexample: the engine applies no clamping, so when the OS CPU
query reports 150 percent the returned snapshot carries a CPU percentage
of 150, which is outside `[0, 100]`. -/
theorem snapshot_unclamped_counterexample :
    (get_lightweight_metrics base_state 100 overrange_env).metrics.map Metrics.cpu
      = some 150
    ∧ ¬ ((150 : ℚ) ≤ 100) := by
  constructor
  · norm_num [get_lightweight_metrics, mem_phase, int_trunc, check_memory_limit,
      optimize_memory_usage, cpu_step, ram_step, disk_step, temp_step, disk_result,
      disk_fallback, calculate_health, base_state, overrange_env, Option.map]
  · norm_num

/-- C5 (amended): the engine itself performs no clamping, but whenever the
cached percentages start in `[0, 100]` and every successful OS query
reports in-range values (with `0 ≤ used ≤ total` for disk), every returned
snapshot has its three percentage fields in `[0, 100]`; and the
temperature field is absent exactly when the construction-time capability
flag is false. -/
theorem snapshot_percentages_conditional_range (s : MonitorCore) (t : ℚ)
    (env : OSEnv)
    (hs1 : 0 ≤ s.cpu_percent) (hs2 : s.cpu_percent ≤ 100)
    (hs3 : 0 ≤ s.ram_percent) (hs4 : s.ram_percent ≤ 100)
    (hs5 : 0 ≤ s.disk_percent) (hs6 : s.disk_percent ≤ 100)
    (hq1 : ∀ v, env.cpu_query = some v → 0 ≤ v ∧ v ≤ 100)
    (hq2 : ∀ v, env.ram_query = some v → 0 ≤ v ∧ v ≤ 100)
    (hq3 : ∀ u tot, env.disk_query_primary = some (u, tot) → 0 ≤ u ∧ u ≤ tot)
    (hq4 : ∀ u tot, env.disk_query_home = some (u, tot) → 0 ≤ u ∧ u ≤ tot) :
    ∀ m, (get_lightweight_metrics s t env).metrics = some m →
      (0 ≤ m.cpu ∧ m.cpu ≤ 100) ∧ (0 ≤ m.ram ∧ m.ram ≤ 100)
      ∧ (0 ≤ m.disk ∧ m.disk ≤ 100)
      ∧ (m.temp = none ↔ s.temp_available = false) := by
  obtain ⟨hp1m, hp2m, hp3m, _, _, _, _, _, _, _, _, hta⟩ :=
    mem_phase_frame s t env.app_memory_mb
  obtain ⟨p1, l1, c1, _, hprov1, _, hcase⟩ :=
    cpu_step_pair (mem_phase s t env.app_memory_mb) t env.cpu_query
  rcases hcase with hc | ⟨_, hc⟩
  · obtain ⟨p2, l2, c2, _, hprov2, _, hrcase⟩ := ram_step_pair
      { mem_phase s t env.app_memory_mb with cpu_percent := p1, last_cpu_time := l1 }
      t env.ram_query
    rcases hrcase with hr | ⟨_, hr⟩
    · obtain ⟨p3, l3, c3, _, hprov3, _, hd⟩ := disk_step_pair
        { { mem_phase s t env.app_memory_mb with
            cpu_percent := p1, last_cpu_time := l1 } with
          ram_percent := p2, last_ram_time := l2 }
        t env.disk_query_primary env.disk_query_home
      obtain ⟨p4, l4, c4, _, _, htp⟩ := temp_step_pair
        { { { mem_phase s t env.app_memory_mb with
              cpu_percent := p1, last_cpu_time := l1 } with
            ram_percent := p2, last_ram_time := l2 } with
          disk_percent := p3, last_disk_time := l3 }
        t env.temp_query
      rw [glm_ok_eq s t env _ _ _ _ _ _ _ _ hc hr hd htp]
      intro m hm
      cases hm
      refine ⟨?_, ?_, ?_, ?_⟩
      · show 0 ≤ p1 ∧ p1 ≤ 100
        rcases hprov1 with h | h
        · rw [h]
          exact ⟨le_of_le_of_eq hs1 hp1m.symm, le_of_eq_of_le hp1m hs2⟩
        · exact hq1 p1 h
      · show 0 ≤ p2 ∧ p2 ≤ 100
        rcases hprov2 with h | h
        · rw [h]
          exact ⟨le_of_le_of_eq hs3 hp2m.symm, le_of_eq_of_le hp2m hs4⟩
        · exact hq2 p2 h
      · show 0 ≤ p3 ∧ p3 ≤ 100
        rcases hprov3 with h | h
        · rw [h]
          exact ⟨le_of_le_of_eq hs5 hp3m.symm, le_of_eq_of_le hp3m hs6⟩
        · rw [h]
          exact disk_result_range env.disk_query_primary env.disk_query_home hq3 hq4
      · show (if (mem_phase s t env.app_memory_mb).temp_available = true
            then some p4 else none) = none
          ↔ s.temp_available = false
        rw [hta]
        cases s.temp_available <;> simp
    · rw [glm_ram_err_eq s t env _ _ _ _ hc hr]
      intro m hm
      cases hm
  · rw [glm_cpu_err_eq s t env _ _ hc]
    intro m hm
    cases hm

/-- Witness for C5's amended theorem: a fresh call at time 1 on the base
state under the benign in-range environment returns the cached in-range
snapshot with the temperature absent. -/
theorem snapshot_percentages_conditional_range_witness :
    ((0:ℚ) ≤ (⟨0, 0, 0, none, 100⟩ : Metrics).cpu
      ∧ (⟨0, 0, 0, none, 100⟩ : Metrics).cpu ≤ 100)
    ∧ ((0:ℚ) ≤ (⟨0, 0, 0, none, 100⟩ : Metrics).ram
      ∧ (⟨0, 0, 0, none, 100⟩ : Metrics).ram ≤ 100)
    ∧ ((0:ℚ) ≤ (⟨0, 0, 0, none, 100⟩ : Metrics).disk
      ∧ (⟨0, 0, 0, none, 100⟩ : Metrics).disk ≤ 100)
    ∧ ((⟨0, 0, 0, none, 100⟩ : Metrics).temp = none
      ↔ base_state.temp_available = false) :=
  snapshot_percentages_conditional_range base_state 1 base_env
    (by norm_num [base_state]) (by norm_num [base_state])
    (by norm_num [base_state]) (by norm_num [base_state])
    (by norm_num [base_state]) (by norm_num [base_state])
    (by intro v hv; simp [base_env] at hv; subst hv; norm_num)
    (by intro v hv; simp [base_env] at hv; subst hv; norm_num)
    (by intro u tot hv; simp [base_env] at hv; obtain ⟨rfl, rfl⟩ := hv; norm_num)
    (by intro u tot hv; simp [base_env] at hv; obtain ⟨rfl, rfl⟩ := hv; norm_num)
    ⟨0, 0, 0, none, 100⟩
    (by norm_num [get_lightweight_metrics, mem_phase, int_trunc, check_memory_limit,
      optimize_memory_usage, cpu_step, ram_step, disk_step, temp_step, disk_result,
      disk_fallback, calculate_health, base_state, base_env])

/-- Witness for C8 at the base state and a 26 MB reading. -/
theorem memory_limit_interval_ratchet_witness :
    ((check_memory_limit base_state 26).1.cpu_interval = 10
     ∧ (check_memory_limit base_state 26).1.ram_interval = 15
     ∧ (check_memory_limit base_state 26).1.disk_interval = 20)
    ∧ ∀ (s2 : MonitorCore) (ops : List Op),
        s2.cpu_interval = 10 → s2.ram_interval = 15 → s2.disk_interval = 20 →
        (run_ops s2 ops).cpu_interval = 10 ∧ (run_ops s2 ops).ram_interval = 15
          ∧ (run_ops s2 ops).disk_interval = 20 :=
  memory_limit_interval_ratchet base_state 26 (by norm_num)

end AetherMonitor
